import Mathlib

/-!
Verification of the NLPlanner Google Calendar client
(src/google_calendar_api/calendar_api_calls.py).

The source is a small synchronous client: `Event.to_dict` serializes an
event into the wire dictionary, `get_today_events` checks a pickle cache
for freshness, on a miss fetches today's events from the remote service,
normalizes each event's start/end timestamp into a 12-hour local display
string, rewrites the cache, and returns the JSON-serialized triple list;
`add_event` submits a serialized event without any local error handling.

Shallow embedding conventions:
  * `time.time()` values and timestamps are integer seconds.
  * The remote service and the on-disk cache are explicit inputs in `Env`;
    the outcome of the remote interaction is a `ServiceResponse`.
  * Python exceptions that the source does not catch are modelled with
    `Except PyError`; the `except HttpError` clause is modelled by the
    `ServiceResponse.httpError` branch of `fetch_path`.
  * The host's local timezone (what `datetime.astimezone()` with no
    argument converts into) is modelled by its UTC offset in minutes at
    the instant in question, carried in `Env.localOffset`.
  * `print` calls are modelled by an explicit `log` of `LogEntry` values.
-/

namespace CalendarApiCalls

/-- JSON-like values: the shape of the Python dict/list payloads exchanged
with the service client. `null` models Python `None`. -/
inductive Json where
  | null : Json
  | str : String → Json
  | arr : List Json → Json
  | obj : List (String × Json) → Json

/-- Python `d.get(k)` on a dict modelled as an association list: the first
binding of the key, or `none`. -/
def jsonGet : Json → String → Option Json
  | Json.obj fields, k => (fields.find? (fun p => p.1 == k)).map Prod.snd
  | _, _ => none

/-- `None` becomes JSON `null`, a string stays a string (how a possibly-`None`
Python value lands in a dict literal). -/
def jsonOfOptStr : Option String → Json
  | none => Json.null
  | some s => Json.str s

/-- The `Event` class: summary, location, description, start/end timestamp
strings, attendee email addresses, and an optional timezone identifier.
The Python field `end` is spelled `end_` (reserved word in Lean). -/
structure Event where
  summary : String
  location : String
  description : String
  start : String
  end_ : String
  attendees : List String
  timeZone : Option String
deriving DecidableEq

/-- The `Event.__init__` default: `attendees if attendees is not None else []`. -/
def Event.init (summary location description start end_ : String)
    (attendees : Option (List String)) (timeZone : Option String) : Event :=
  { summary := summary, location := location, description := description
  , start := start, end_ := end_
  , attendees := attendees.getD []
  , timeZone := timeZone }

/-- `Event.to_dict`: the wire dictionary built before submission. -/
def Event.to_dict (e : Event) : Json :=
  Json.obj
    [ ("summary", Json.str e.summary)
    , ("location", Json.str e.location)
    , ("description", Json.str e.description)
    , ("start", Json.obj
        [ ("dateTime", Json.str e.start)
        , ("timeZone", jsonOfOptStr e.timeZone) ])
    , ("end", Json.obj
        [ ("dateTime", Json.str e.end_)
        , ("timeZone", jsonOfOptStr e.timeZone) ])
    , ("attendees", Json.arr (e.attendees.map
        (fun attendee => Json.obj [("email", Json.str attendee)])))
    ]

/-! ### Timestamp parsing and formatting

`datetime.datetime.strptime(s, '%Y-%m-%dT%H:%M:%S%z')` followed by
`.astimezone()` and `.strftime('%I:%M %p')`. The parser is a direct
character-level embedding of the format string; a parse failure
(`ValueError` in Python) is `none`. -/

/-- A parsed aware datetime: calendar fields plus the UTC offset (minutes)
carried by the `%z` component. -/
structure ParsedTime where
  year : Nat
  month : Nat
  day : Nat
  hour : Nat
  minute : Nat
  second : Nat
  offsetMinutes : Int
deriving DecidableEq

def digit? (c : Char) : Option Nat :=
  if c.isDigit then some (c.toNat - 48) else none

/-- Two mandatory decimal digits, as `%m`, `%d`, `%H`, `%M`, `%S` demand. -/
def parse2 : List Char → Option (Nat × List Char)
  | c1 :: c2 :: rest => do
      let d1 ← digit? c1
      let d2 ← digit? c2
      pure (d1 * 10 + d2, rest)
  | _ => none

/-- Four decimal digits for `%Y` (the source's timestamps all have
four-digit years, which is also what `%Y` zero-pads to). -/
def parse4 (cs : List Char) : Option (Nat × List Char) := do
  let (hi, rest) ← parse2 cs
  let (lo, rest2) ← parse2 rest
  pure (hi * 100 + lo, rest2)

def parseLit (c : Char) : List Char → Option (List Char)
  | c2 :: rest => if c2 == c then some rest else none
  | [] => none

/-- The `%z` directive: `Z` for UTC, or a sign with `HHMM` or `HH:MM`
(the forms the source's data uses). Result is the offset in minutes. -/
def parseOffset : List Char → Option (Int × List Char)
  | 'Z' :: rest => some (0, rest)
  | '+' :: rest => do
      let (hh, rest2) ← parse2 rest
      match rest2 with
      | ':' :: rest3 => do
          let (mm, rest4) ← parse2 rest3
          pure ((hh * 60 + mm : Nat), rest4)
      | _ => do
          let (mm, rest4) ← parse2 rest2
          pure ((hh * 60 + mm : Nat), rest4)
  | '-' :: rest => do
      let (hh, rest2) ← parse2 rest
      match rest2 with
      | ':' :: rest3 => do
          let (mm, rest4) ← parse2 rest3
          pure (-((hh * 60 + mm : Nat) : Int), rest4)
      | _ => do
          let (mm, rest4) ← parse2 rest2
          pure (-((hh * 60 + mm : Nat) : Int), rest4)
  | _ => none

/-- `datetime.strptime(s, '%Y-%m-%dT%H:%M:%S%z')`; `none` models the
`ValueError` raised when the string does not match the format (including
range checks and the requirement that the whole string is consumed). -/
def strptime_iso (s : String) : Option ParsedTime := do
  let cs := s.toList
  let (y, cs) ← parse4 cs
  let cs ← parseLit '-' cs
  let (mo, cs) ← parse2 cs
  let cs ← parseLit '-' cs
  let (d, cs) ← parse2 cs
  let cs ← parseLit 'T' cs
  let (h, cs) ← parse2 cs
  let cs ← parseLit ':' cs
  let (mi, cs) ← parse2 cs
  let cs ← parseLit ':' cs
  let (sec, cs) ← parse2 cs
  let (off, cs) ← parseOffset cs
  if cs.isEmpty && 1 ≤ mo && mo ≤ 12 && 1 ≤ d && d ≤ 31 &&
      h ≤ 23 && mi ≤ 59 && sec ≤ 61 then
    pure ⟨y, mo, d, h, mi, sec, off⟩
  else
    none

/-- `.astimezone()` to the host local timezone (offset `localOffset`
minutes), keeping only the local time of day, which is all
`'%I:%M %p'` displays. -/
def localMinutesOfDay (localOffset : Int) (t : ParsedTime) : Nat :=
  (((t.hour * 60 + t.minute : Nat) - t.offsetMinutes + localOffset) % 1440).toNat

/-- The digit character for `n % 10`. -/
def digitChar (n : Nat) : Char := Char.ofNat (48 + n % 10)

/-- Two-digit zero-padded decimal, as `%I` and `%M` produce. -/
def pad2 (n : Nat) : String := String.mk [digitChar (n / 10 % 10), digitChar (n % 10)]

/-- Four-digit zero-padded decimal, for years in `isoformat()`. -/
def pad4 (n : Nat) : String :=
  String.mk [digitChar (n / 1000 % 10), digitChar (n / 100 % 10),
             digitChar (n / 10 % 10), digitChar (n % 10)]

/-- `.strftime('%I:%M %p')` of the local time: 12-hour zero-padded clock
with an AM/PM marker. -/
def strftime_IMp (localOffset : Int) (t : ParsedTime) : String :=
  let m := localMinutesOfDay localOffset t
  let h := m / 60
  let mi := m % 60
  let h12 := if h % 12 == 0 then 12 else h % 12
  let marker := if h < 12 then "AM" else "PM"
  pad2 h12 ++ ":" ++ pad2 mi ++ " " ++ marker

/-! ### Raw events from the listing and their normalization -/

/-- The `start`/`end` sub-dictionary of a listed event: an optional
precise `dateTime` and an optional all-day `date`. -/
structure TimeField where
  dateTime : Option String
  date : Option String
deriving DecidableEq

/-- A listed event as the loop reads it. `summary` is `none` when the
dictionary lacks the key (`event['summary']` then raises `KeyError`). -/
structure RawEvent where
  start : TimeField
  end_ : TimeField
  summary : Option String
deriving DecidableEq

/-- Python exceptions that escape the source's `except HttpError` clause. -/
inductive PyError where
  | valueError : PyError
  | typeError : PyError
  | keyError : String → PyError
deriving DecidableEq

/-- `event['start'].get('dateTime', event['start'].get('date'))`. -/
def extractTime (f : TimeField) : Option String :=
  match f.dateTime with
  | some s => some s
  | none => f.date

/-- One side of the normalization: extract, `strptime`, `astimezone`,
`strftime`. `typeError` models `strptime(None, ...)`; `valueError` a
format mismatch. -/
def formatField (localOffset : Int) (f : TimeField) : Except PyError String :=
  match extractTime f with
  | none => Except.error PyError.typeError
  | some s =>
      match strptime_iso s with
      | none => Except.error PyError.valueError
      | some t => Except.ok (strftime_IMp localOffset t)

/-- The loop body: start, then end, then `event['summary']`; the first
exception aborts the iteration. -/
def normalizeEvent (localOffset : Int) (ev : RawEvent) :
    Except PyError (String × String × String) :=
  match formatField localOffset ev.start with
  | Except.error e => Except.error e
  | Except.ok start_time =>
      match formatField localOffset ev.end_ with
      | Except.error e => Except.error e
      | Except.ok end_time =>
          match ev.summary with
          | none => Except.error (PyError.keyError "summary")
          | some name => Except.ok (start_time, end_time, name)

/-- The whole `for event in events` loop building `event_list`; an
exception from any iteration aborts the loop. -/
def normalizeEvents (localOffset : Int) : List RawEvent →
    Except PyError (List (String × String × String))
  | [] => Except.ok []
  | ev :: rest =>
      match normalizeEvent localOffset ev with
      | Except.error e => Except.error e
      | Except.ok t =>
          match normalizeEvents localOffset rest with
          | Except.error e => Except.error e
          | Except.ok ts => Except.ok (t :: ts)

/-! ### `json.dumps` of the triple list

Python serializes a list of 3-tuples of plain ASCII strings as
`[["a", "b", "c"], ...]` with the default `', '` separator. -/

def jsonEscapeChar (c : Char) : String :=
  if c == '"' then "\\\"" else if c == '\\' then "\\\\" else String.singleton c

def jsonStringLit (s : String) : String :=
  "\"" ++ String.join (s.toList.map jsonEscapeChar) ++ "\""

def commaJoin : List String → String
  | [] => ""
  | [x] => x
  | x :: rest => x ++ ", " ++ commaJoin rest

def dumpsTriple (t : String × String × String) : String :=
  "[" ++ jsonStringLit t.1 ++ ", " ++ jsonStringLit t.2.1 ++ ", " ++
    jsonStringLit t.2.2 ++ "]"

/-- `json.dumps(event_list)` for the triple lists the source serializes. -/
def json_dumps (l : List (String × String × String)) : String :=
  "[" ++ commaJoin (l.map dumpsTriple) ++ "]"

/-! ### Cache, day window, and the listing request -/

def CACHE_DURATION : Int := 360

/-- The pickled cache record: capture time and the normalized triples. -/
structure CacheData where
  timestamp : Int
  event_list : List (String × String × String)
deriving DecidableEq

/-- The freshness test `time.time() - cache_data["timestamp"] < CACHE_DURATION`
(false as well when no cache file exists). -/
def cache_valid : Option CacheData → Int → Bool
  | some cd, now => now - cd.timestamp < CACHE_DURATION
  | none, _ => false

/-- A Gregorian calendar date. -/
structure Date where
  year : Nat
  month : Nat
  day : Nat
deriving DecidableEq

def isLeap (y : Nat) : Bool :=
  (y % 4 == 0 && y % 100 != 0) || y % 400 == 0

def daysInMonth (y m : Nat) : Nat :=
  if m == 2 then (if isLeap y then 29 else 28)
  else if m == 4 || m == 6 || m == 9 || m == 11 then 30
  else 31

/-- `today + datetime.timedelta(days=1)` at the wall-clock date level: a
fixed-offset aware datetime advances by exactly one calendar day. -/
def nextDay (d : Date) : Date :=
  if d.day < daysInMonth d.year d.month then ⟨d.year, d.month, d.day + 1⟩
  else if d.month < 12 then ⟨d.year, d.month + 1, 1⟩
  else ⟨d.year + 1, 1, 1⟩

/-- `isoformat()` of a UTC offset in minutes: sign, `HH:MM`. -/
def offsetIso (off : Int) : String :=
  let sign := if off < 0 then "-" else "+"
  let a := off.natAbs
  sign ++ pad2 (a / 60) ++ ":" ++ pad2 (a % 60)

/-- `today.replace(hour=0, minute=0, second=0, microsecond=0).isoformat()`:
midnight of the given date in the given fixed-offset timezone. -/
def midnightIso (d : Date) (off : Int) : String :=
  pad4 d.year ++ "-" ++ pad2 d.month ++ "-" ++ pad2 d.day ++ "T00:00:00" ++
    offsetIso off

/-- The parameters of `service.events().list(...)` as the source fills
them in. -/
structure ListRequest where
  calendarId : String
  timeMin : String
  timeMax : String
  singleEvents : Bool
  orderBy : String
  timeZone : Option String
deriving DecidableEq

/-- The listing request the source issues: day window from the host-local
date `localDate` at host-local offset `localOffset` (from
`datetime.now(utc).astimezone()`), with the calendar metadata timezone
`time_zone` passed through as the `timeZone` parameter. -/
def buildListRequest (localDate : Date) (localOffset : Int)
    (time_zone : Option String) : ListRequest :=
  { calendarId := "primary"
  , timeMin := midnightIso localDate localOffset
  , timeMax := midnightIso (nextDay localDate) localOffset
  , singleEvents := true
  , orderBy := "startTime"
  , timeZone := time_zone }

/-- Modelled from the spec (for comparison with `buildListRequest`, not from
the source): the claim's window lower bound, start-of-day in the timezone
reported by the remote primary calendar's metadata, that timezone given by
its UTC offset in minutes. -/
def specWindowMin (day : Date) (calendarOffset : Int) : String :=
  midnightIso day calendarOffset

/-! ### `get_today_events` -/

/-- The outcome of the remote interaction inside the `try` block: either
some service call raised `HttpError` (with its message), or the listing
returned its `items`. -/
inductive ServiceResponse where
  | httpError : String → ServiceResponse
  | items : List RawEvent → ServiceResponse
deriving DecidableEq

/-- One `print` call. -/
inductive LogEntry where
  | usingCachedData
  | gettingTodaysEvents
  | noUpcomingEvents
  | printedEventList : List (String × String × String) → LogEntry
  | anErrorOccurred : String → LogEntry
  | eventCreated : Option Json → LogEntry

/-- Everything outside the function that one call to `get_today_events`
observes. -/
structure Env where
  /-- contents of `events_cache.pkl`, `none` when the file does not exist -/
  cache : Option CacheData
  /-- `time.time()`, integer seconds -/
  now : Int
  /-- the host-local calendar date of `datetime.now(utc).astimezone()` -/
  localDate : Date
  /-- the host-local UTC offset in minutes -/
  localOffset : Int
  /-- `calendar.get('timeZone')` from the primary calendar metadata -/
  calendarTimeZone : Option String
  /-- outcome of the remote interaction, were it attempted -/
  response : ServiceResponse
deriving DecidableEq

/-- Result of a call: the Python return value (`none` is Python `None`,
an `Except.error` an uncaught exception), the cache file contents after
the call, the `print` log, and the listing request issued, if any. -/
structure GetResult where
  ret : Except PyError (Option String)
  cache : Option CacheData
  log : List LogEntry
  request : Option ListRequest

/-- The part of the `try` body from `if not events:` on: return `None` on an
empty listing, otherwise run the loop, print and cache the result; a loop
exception propagates and skips the cache write. -/
def processItems (env : Env) (evs : List RawEvent) : GetResult :=
  let req := buildListRequest env.localDate env.localOffset env.calendarTimeZone
  if evs.isEmpty then
    { ret := Except.ok none
    , cache := env.cache
    , log := [LogEntry.gettingTodaysEvents, LogEntry.noUpcomingEvents]
    , request := some req }
  else
    match normalizeEvents env.localOffset evs with
    | Except.error e =>
        { ret := Except.error e
        , cache := env.cache
        , log := [LogEntry.gettingTodaysEvents]
        , request := some req }
    | Except.ok event_list =>
        { ret := Except.ok (some (json_dumps event_list))
        , cache := some ⟨env.now, event_list⟩
        , log := [LogEntry.gettingTodaysEvents,
                  LogEntry.printedEventList event_list]
        , request := some req }

/-- The `try`/`except HttpError` body of `get_today_events`, entered on a
cache miss or expiry. An `HttpError` can only arise from the service
calls, which all precede the loop, so the caught branch returns the
still-empty `event_list` serialized; a loop exception (`ValueError`,
`TypeError`, `KeyError`) is not caught and propagates. The cache file is
rewritten only after the loop completes. -/
def fetch_path (env : Env) : GetResult :=
  match env.response with
  | ServiceResponse.httpError msg =>
      { ret := Except.ok (some (json_dumps []))
      , cache := env.cache
      , log := [LogEntry.anErrorOccurred msg]
      , request := none }
  | ServiceResponse.items evs => processItems env evs

/-- `get_today_events`: serve the cache when the file exists and is fresh,
otherwise run the fetch path. -/
def get_today_events (env : Env) : GetResult :=
  match env.cache with
  | some cache_data =>
      if env.now - cache_data.timestamp < CACHE_DURATION then
        { ret := Except.ok (some (json_dumps cache_data.event_list))
        , cache := env.cache
        , log := [LogEntry.usingCachedData]
        , request := none }
      else fetch_path env
  | none => fetch_path env

/-! ### `add_event` -/

/-- `add_event`: serialize with `to_dict`, submit once via the service
(`insert` is the collaborator's `insert(...).execute()`), print the
returned link. No `try` block: a service error propagates unchanged. -/
def add_event (insert : Json → Except String Json) (new_event : Event) :
    Except String (List LogEntry) :=
  match insert (Event.to_dict new_event) with
  | Except.error e => Except.error e
  | Except.ok ev => Except.ok [LogEntry.eventCreated (jsonGet ev "htmlLink")]

/-! ### Concrete fixtures used by the witnesses and counterexamples -/

/-- A normalized triple as the cache stores it. -/
def sampleTriple : String × String × String := ("09:00 AM", "05:00 PM", "Test")

/-- A cache record captured at t = 1000. -/
def sampleCache : CacheData := ⟨1000, [sampleTriple]⟩

/-- A listed event with precise timestamps and a summary. -/
def sampleRawEvent : RawEvent :=
  ⟨⟨some "2023-05-28T09:00:00-07:00", none⟩,
   ⟨some "2023-05-28T17:00:00-07:00", none⟩,
   some "Test"⟩

/-- The `Event` of the spec's submission round-trip. -/
def sampleEvent : Event :=
  ⟨"Test", "", "", "2023-05-28T09:00:00-07:00", "2023-05-28T17:00:00-07:00",
   ["a@example.com"], some "America/Los_Angeles"⟩

/-! ### Helper lemmas on the cache branch of `get_today_events` -/

/-- On a fresh cache record the call short-circuits to the cached result. -/
theorem get_today_events_fresh (env : Env) (cd : CacheData)
    (hc : env.cache = some cd)
    (hf : env.now - cd.timestamp < CACHE_DURATION) :
    get_today_events env =
      { ret := Except.ok (some (json_dumps cd.event_list))
      , cache := env.cache
      , log := [LogEntry.usingCachedData]
      , request := none } := by
  unfold get_today_events
  rw [hc]
  simp [hf]

/-- With no cache file or an expired record the call runs the fetch path. -/
theorem get_today_events_stale (env : Env)
    (hv : cache_valid env.cache env.now = false) :
    get_today_events env = fetch_path env := by
  unfold get_today_events
  cases hc : env.cache with
  | none => rfl
  | some cd =>
      have hv2 : ¬ (env.now - cd.timestamp < CACHE_DURATION) := by
        have hv3 := hv
        rw [hc] at hv3
        simpa [cache_valid] using hv3
      simp [hv2]

/-- A call that changed the cache file necessarily took the fetch path. -/
theorem get_cache_changed (env : Env)
    (h : (get_today_events env).cache ≠ env.cache) :
    get_today_events env = fetch_path env := by
  cases hc : env.cache with
  | none =>
      apply get_today_events_stale
      rw [hc]
      rfl
  | some cd =>
      by_cases hf : env.now - cd.timestamp < CACHE_DURATION
      · exfalso
        apply h
        rw [get_today_events_fresh env cd hc hf]
      · apply get_today_events_stale
        rw [hc]
        simpa [cache_valid] using hf

/-- Equation lemma: the fetch path on a service error. -/
theorem fetch_path_httpError (env : Env) (msg : String)
    (hr : env.response = ServiceResponse.httpError msg) :
    fetch_path env =
      { ret := Except.ok (some (json_dumps []))
      , cache := env.cache
      , log := [LogEntry.anErrorOccurred msg]
      , request := none } := by
  unfold fetch_path
  rw [hr]

/-- Equation lemma: the fetch path on a successful listing. -/
theorem fetch_path_items (env : Env) (evs : List RawEvent)
    (hr : env.response = ServiceResponse.items evs) :
    fetch_path env = processItems env evs := by
  unfold fetch_path
  rw [hr]

/-- Equation lemma: an empty listing. -/
theorem processItems_nil (env : Env) :
    processItems env [] =
      { ret := Except.ok none
      , cache := env.cache
      , log := [LogEntry.gettingTodaysEvents, LogEntry.noUpcomingEvents]
      , request := some (buildListRequest env.localDate env.localOffset
          env.calendarTimeZone) } := rfl

/-- Equation lemma: a listing whose normalization loop raises. -/
theorem processItems_error (env : Env) (a : RawEvent) (l : List RawEvent)
    (e : PyError)
    (hn : normalizeEvents env.localOffset (a :: l) = Except.error e) :
    processItems env (a :: l) =
      { ret := Except.error e
      , cache := env.cache
      , log := [LogEntry.gettingTodaysEvents]
      , request := some (buildListRequest env.localDate env.localOffset
          env.calendarTimeZone) } := by
  unfold processItems
  rw [hn]
  rfl

/-- Equation lemma: a listing whose normalization loop succeeds. -/
theorem processItems_ok (env : Env) (a : RawEvent) (l : List RawEvent)
    (el : List (String × String × String))
    (hn : normalizeEvents env.localOffset (a :: l) = Except.ok el) :
    processItems env (a :: l) =
      { ret := Except.ok (some (json_dumps el))
      , cache := some ⟨env.now, el⟩
      , log := [LogEntry.gettingTodaysEvents, LogEntry.printedEventList el]
      , request := some (buildListRequest env.localDate env.localOffset
          env.calendarTimeZone) } := by
  unfold processItems
  rw [hn]
  rfl

/-- If the fetch path rewrote the cache file, the run was fully successful:
the new record holds exactly the normalized list that was also returned
serialized. -/
theorem fetch_path_cache_changed (env : Env)
    (h : (fetch_path env).cache ≠ env.cache) :
    ∃ l, (fetch_path env).ret = Except.ok (some (json_dumps l)) ∧
      (fetch_path env).cache = some ⟨env.now, l⟩ := by
  cases hrsp : env.response with
  | httpError m =>
      rw [fetch_path_httpError env m hrsp] at h
      exact absurd rfl h
  | items evs =>
      rw [fetch_path_items env evs hrsp] at h ⊢
      cases evs with
      | nil =>
          rw [processItems_nil env] at h
          exact absurd rfl h
      | cons a l =>
          cases hn : normalizeEvents env.localOffset (a :: l) with
          | error e =>
              rw [processItems_error env a l e hn] at h
              exact absurd rfl h
          | ok el =>
              rw [processItems_ok env a l el hn]
              exact ⟨el, rfl, rfl⟩

/-! ### Claim C1 -/

/-- Claim C1: with an on-disk cache record of timestamp t, a call at time
now with now - t strictly below 360 seconds returns the stored event list
serialized, without contacting the remote service (the result is the same
whatever the remote response would have been, and no listing request is
issued); with now - t at least 360 seconds the call proceeds to the fresh
fetch path. -/
theorem C1_cache_freshness (env : Env) (cd : CacheData)
    (hc : env.cache = some cd) :
    (env.now - cd.timestamp < CACHE_DURATION →
      (get_today_events env).ret = Except.ok (some (json_dumps cd.event_list)) ∧
      (get_today_events env).request = none ∧
      ∀ r : ServiceResponse,
        get_today_events { env with response := r } = get_today_events env) ∧
    (CACHE_DURATION ≤ env.now - cd.timestamp →
      get_today_events env = fetch_path env) := by
  constructor
  · intro hf
    refine ⟨?_, ?_, ?_⟩
    · rw [get_today_events_fresh env cd hc hf]
    · rw [get_today_events_fresh env cd hc hf]
    · intro r
      rw [get_today_events_fresh env cd hc hf,
          get_today_events_fresh { env with response := r } cd hc hf]
  · intro hs
    apply get_today_events_stale
    rw [hc]
    simp [cache_valid, not_lt.mpr hs]

/-- The environment of the fresh-cache witness: record captured at t = 1000,
call at now = 1359 (difference 359 < 360). -/
def envC1fresh : Env :=
  { cache := some sampleCache, now := 1359, localDate := ⟨2023, 5, 28⟩
  , localOffset := -420, calendarTimeZone := some "America/Los_Angeles"
  , response := ServiceResponse.items [sampleRawEvent] }

/-- The environment of the stale-cache witness: same record, call at
now = 1360 (difference exactly 360, not strictly below). -/
def envC1stale : Env :=
  { cache := some sampleCache, now := 1360, localDate := ⟨2023, 5, 28⟩
  , localOffset := -420, calendarTimeZone := some "America/Los_Angeles"
  , response := ServiceResponse.items [sampleRawEvent] }

/-- Claim C1 witness: at t + 359 the cached payload is served; at t + 360
the call equals the fetch path. -/
theorem C1_cache_freshness_witness :
    (get_today_events envC1fresh).ret =
      Except.ok (some (json_dumps sampleCache.event_list)) ∧
    get_today_events envC1stale = fetch_path envC1stale :=
  ⟨((C1_cache_freshness envC1fresh sampleCache rfl).1 (by decide)).1,
   (C1_cache_freshness envC1stale sampleCache rfl).2 (by decide)⟩

/-! ### Claim C9 -/

/-- Claim C9: any two calls whose current times both fall inside the
freshness window of the same cache record return byte-identical serialized
output (both return exactly the record's list serialized), and such a call
leaves the cache record unchanged, so the repetition reads the same record. -/
theorem C9_repeated_fresh_reads (env1 env2 : Env) (cd : CacheData)
    (h1 : env1.cache = some cd) (h2 : env2.cache = some cd)
    (f1 : env1.now - cd.timestamp < CACHE_DURATION)
    (f2 : env2.now - cd.timestamp < CACHE_DURATION) :
    (get_today_events env1).ret = (get_today_events env2).ret ∧
    (get_today_events env1).ret =
      Except.ok (some (json_dumps cd.event_list)) ∧
    (get_today_events env1).cache = env1.cache := by
  rw [get_today_events_fresh env1 cd h1 f1, get_today_events_fresh env2 cd h2 f2]
  exact ⟨rfl, rfl, rfl⟩

/-- First read of the idempotence witness (now = 1100). -/
def envC9a : Env :=
  { cache := some sampleCache, now := 1100, localDate := ⟨2023, 5, 28⟩
  , localOffset := -420, calendarTimeZone := some "America/Los_Angeles"
  , response := ServiceResponse.items [sampleRawEvent] }

/-- Second read of the idempotence witness (now = 1300, same record). -/
def envC9b : Env :=
  { cache := some sampleCache, now := 1300, localDate := ⟨2023, 5, 28⟩
  , localOffset := -420, calendarTimeZone := some "America/Los_Angeles"
  , response := ServiceResponse.items [sampleRawEvent] }

/-- Claim C9 witness: the two fresh reads at now = 1100 and now = 1300
return the same bytes. -/
theorem C9_repeated_fresh_reads_witness :
    (get_today_events envC9a).ret = (get_today_events envC9b).ret :=
  (C9_repeated_fresh_reads envC9a envC9b sampleCache rfl rfl
    (by decide) (by decide)).1

/-! ### Claim C3 -/

/-- The environment of the empty-listing run: no cache file, remote
listing returns no items. -/
def envC3 : Env :=
  { cache := none, now := 2000, localDate := ⟨2023, 5, 28⟩
  , localOffset := -420, calendarTimeZone := some "America/Los_Angeles"
  , response := ServiceResponse.items [] }

/-- Claim C3 counterexample: on an empty remote listing the function
returns Python None (the bare `return`), not the JSON-serialized empty
list "[]" the claim states. -/
theorem C3_counterexample :
    (get_today_events envC3).ret = Except.ok none ∧
    (get_today_events envC3).ret ≠ Except.ok (some (json_dumps [])) := by
  refine ⟨rfl, fun h => ?_⟩
  have h2 : Except.ok (α := Option String) (ε := PyError) none =
      Except.ok (some (json_dumps [])) := h
  simp at h2

/-- Claim C3 amended: when the remote listing returns no items, the fetch
path returns Python None (serialized to the caller as null), does not
raise, and leaves the cache file unchanged. -/
theorem C3_empty_listing (env : Env)
    (hv : cache_valid env.cache env.now = false)
    (hi : env.response = ServiceResponse.items []) :
    (get_today_events env).ret = Except.ok none ∧
    (get_today_events env).cache = env.cache := by
  rw [get_today_events_stale env hv, fetch_path_items env [] hi,
      processItems_nil env]
  exact ⟨rfl, rfl⟩

/-- Claim C3 witness: the amended behavior at the concrete empty-listing
environment. -/
theorem C3_empty_listing_witness :
    (get_today_events envC3).ret = Except.ok none ∧
    (get_today_events envC3).cache = envC3.cache :=
  C3_empty_listing envC3 rfl rfl

/-! ### Claim C4 -/

/-- The environment of the window counterexample: the host local timezone
has UTC offset -480 minutes, while the primary calendar's metadata reports
America/New_York, whose UTC offset on 2023-05-28 is -300 minutes. -/
def envC4 : Env :=
  { cache := none, now := 2000, localDate := ⟨2023, 5, 28⟩
  , localOffset := -480, calendarTimeZone := some "America/New_York"
  , response := ServiceResponse.items [sampleRawEvent] }

/-- Claim C4 counterexample: the issued request's timeMin is midnight at
the host's local offset (-08:00), not midnight in the calendar metadata
timezone (America/New_York, -05:00 on that date): the day window is not
computed in the metadata timezone. -/
theorem C4_counterexample :
    (get_today_events envC4).request.map ListRequest.timeMin =
      some "2023-05-28T00:00:00-08:00" ∧
    specWindowMin ⟨2023, 5, 28⟩ (-300) = "2023-05-28T00:00:00-05:00" ∧
    ("2023-05-28T00:00:00-08:00" : String) ≠ "2023-05-28T00:00:00-05:00" := by
  refine ⟨rfl, rfl, ?_⟩
  decide

/-- Claim C4 amended: the query window is [start-of-day, start-of-next-day)
in the host process's local timezone (the one `datetime.now(utc).astimezone()`
reports), not in the calendar metadata timezone; the metadata timezone is
passed to the listing only as its timeZone display parameter; the request
asks for single (expanded) events ordered by start time on the primary
calendar. -/
theorem C4_query_window (env : Env) (evs : List RawEvent)
    (hv : cache_valid env.cache env.now = false)
    (hi : env.response = ServiceResponse.items evs) :
    (get_today_events env).request =
      some { calendarId := "primary"
           , timeMin := midnightIso env.localDate env.localOffset
           , timeMax := midnightIso (nextDay env.localDate) env.localOffset
           , singleEvents := true
           , orderBy := "startTime"
           , timeZone := env.calendarTimeZone } := by
  rw [get_today_events_stale env hv, fetch_path_items env evs hi]
  cases evs with
  | nil =>
      rw [processItems_nil env]
      rfl
  | cons a l =>
      cases hn : normalizeEvents env.localOffset (a :: l) with
      | error e =>
          rw [processItems_error env a l e hn]
          rfl
      | ok el =>
          rw [processItems_ok env a l el hn]
          rfl

/-- Claim C4 witness: the request issued by the concrete mismatched-offset
run, with its window at the host offset -480. -/
theorem C4_query_window_witness :
    (get_today_events envC4).request =
      some { calendarId := "primary"
           , timeMin := midnightIso ⟨2023, 5, 28⟩ (-480)
           , timeMax := midnightIso (nextDay ⟨2023, 5, 28⟩) (-480)
           , singleEvents := true
           , orderBy := "startTime"
           , timeZone := some "America/New_York" } :=
  C4_query_window envC4 [sampleRawEvent] rfl rfl

/-! ### Claim C5 -/

/-- A listed event with precise, parseable timestamps but no summary key. -/
def noSummaryEvent : RawEvent :=
  ⟨⟨some "2023-05-28T09:00:00-07:00", none⟩,
   ⟨some "2023-05-28T17:00:00-07:00", none⟩,
   none⟩

/-- The environment of the missing-summary run. -/
def envC5 : Env :=
  { cache := none, now := 2000, localDate := ⟨2023, 5, 28⟩
  , localOffset := -420, calendarTimeZone := some "America/Los_Angeles"
  , response := ServiceResponse.items [noSummaryEvent] }

/-- Claim C5 counterexample: an event lacking a summary is not passed
through with the field omitted — `event['summary']` raises KeyError, so
the call produces no output triple at all (no Except.ok return exists). -/
theorem C5_counterexample :
    (get_today_events envC5).ret = Except.error (PyError.keyError "summary") ∧
    ∀ s : Option String, (get_today_events envC5).ret ≠ Except.ok s := by
  refine ⟨rfl, fun s h => ?_⟩
  have h2 : Except.error (α := Option String) (PyError.keyError "summary") =
      Except.ok s := h
  exact Except.noConfusion h2

/-- Claim C5 amended: an event lacking a summary field makes
`event['summary']` raise KeyError, which is not an HttpError and therefore
propagates out of get_today_events uncaught; no default value is
substituted and the cache is left unchanged. -/
theorem C5_missing_summary (env : Env) (ev : RawEvent) (rest : List RawEvent)
    (hv : cache_valid env.cache env.now = false)
    (hi : env.response = ServiceResponse.items (ev :: rest))
    (hs : ev.summary = none)
    (s1 : String) (h1 : formatField env.localOffset ev.start = Except.ok s1)
    (s2 : String) (h2 : formatField env.localOffset ev.end_ = Except.ok s2) :
    (get_today_events env).ret = Except.error (PyError.keyError "summary") ∧
    (get_today_events env).cache = env.cache := by
  have hne : normalizeEvent env.localOffset ev =
      Except.error (PyError.keyError "summary") := by
    unfold normalizeEvent
    rw [h1, h2, hs]
  have hl : normalizeEvents env.localOffset (ev :: rest) =
      Except.error (PyError.keyError "summary") := by
    unfold normalizeEvents
    rw [hne]
  rw [get_today_events_stale env hv, fetch_path_items env (ev :: rest) hi,
      processItems_error env ev rest (PyError.keyError "summary") hl]
  exact ⟨rfl, rfl⟩

/-- Claim C5 witness: the amended behavior at the concrete
missing-summary environment. -/
theorem C5_missing_summary_witness :
    (get_today_events envC5).ret = Except.error (PyError.keyError "summary") ∧
    (get_today_events envC5).cache = envC5.cache :=
  C5_missing_summary envC5 noSummaryEvent [] rfl rfl rfl
    "09:00 AM" rfl "05:00 PM" rfl

/-! ### Claim C6 -/

/-- Claim C6: an HttpError raised during the fetch path is caught and
logged, and the function returns the partial event list it had — the
service calls all precede the loop, so that list is empty — serialized as
"[]", instead of propagating the error. -/
theorem C6_fetch_error_handling (env : Env) (msg : String)
    (hv : cache_valid env.cache env.now = false)
    (hr : env.response = ServiceResponse.httpError msg) :
    (get_today_events env).ret = Except.ok (some (json_dumps [])) ∧
    (get_today_events env).log = [LogEntry.anErrorOccurred msg] ∧
    json_dumps [] = "[]" := by
  rw [get_today_events_stale env hv, fetch_path_httpError env msg hr]
  exact ⟨rfl, rfl, rfl⟩

/-- The environment of the fetch-error witness: an expired cache record
and a service that raises. -/
def envC6 : Env :=
  { cache := some sampleCache, now := 1500, localDate := ⟨2023, 5, 28⟩
  , localOffset := -420, calendarTimeZone := some "America/Los_Angeles"
  , response := ServiceResponse.httpError "An error occurred: 503" }

/-- Claim C6 witness: the concrete erroring run returns "[]" and logs the
error. -/
theorem C6_fetch_error_handling_witness :
    (get_today_events envC6).ret = Except.ok (some (json_dumps [])) ∧
    (get_today_events envC6).log =
      [LogEntry.anErrorOccurred "An error occurred: 503"] ∧
    json_dumps [] = "[]" :=
  C6_fetch_error_handling envC6 "An error occurred: 503" (by decide) rfl

/-! ### Claim C7 -/

/-- Claim C7: for every Event, the wire dictionary nests start and end
into objects carrying the timestamp and the timezone identifier, and maps
each attendee address into an object with an email field; in particular
the spec's round-trip Event (summary "Test", the two -07:00 timestamps,
attendees ["a@example.com"], timezone America/Los_Angeles) serializes its
attendees as a one-element list of email objects with its start nested
alongside the supplied timezone string. -/
theorem C7_wire_format (e : Event) :
    jsonGet (Event.to_dict e) "start" =
      some (Json.obj [("dateTime", Json.str e.start),
                      ("timeZone", jsonOfOptStr e.timeZone)]) ∧
    jsonGet (Event.to_dict e) "end" =
      some (Json.obj [("dateTime", Json.str e.end_),
                      ("timeZone", jsonOfOptStr e.timeZone)]) ∧
    jsonGet (Event.to_dict e) "attendees" =
      some (Json.arr (e.attendees.map
        (fun attendee => Json.obj [("email", Json.str attendee)]))) ∧
    jsonGet (Event.to_dict sampleEvent) "attendees" =
      some (Json.arr [Json.obj [("email", Json.str "a@example.com")]]) ∧
    jsonGet (Event.to_dict sampleEvent) "start" =
      some (Json.obj [("dateTime", Json.str "2023-05-28T09:00:00-07:00"),
                      ("timeZone", Json.str "America/Los_Angeles")]) :=
  ⟨rfl, rfl, rfl, rfl, rfl⟩

/-! ### Claim C8 -/

/-- Claim C8: a service or transport error raised while submitting an
Event through add_event is not caught there: the very error surfaces to
the caller, with no local handling and no retry (the single insert call's
outcome is the function's outcome). -/
theorem C8_add_event_propagates (insert : Json → Except String Json)
    (e : Event) (err : String)
    (h : insert (Event.to_dict e) = Except.error err) :
    add_event insert e = Except.error err := by
  unfold add_event
  rw [h]

/-- Claim C8 witness: a service that raises on the sample event makes
add_event surface exactly that error. -/
theorem C8_add_event_propagates_witness :
    add_event (fun _ => Except.error "HttpError 500") sampleEvent =
      Except.error "HttpError 500" :=
  C8_add_event_propagates (fun _ => Except.error "HttpError 500")
    sampleEvent "HttpError 500" rfl

/-! ### Claim C2 -/

/-- An all-day event: both fields carry only the date, no dateTime. -/
def allDayEvent : RawEvent :=
  ⟨⟨none, some "2023-05-28"⟩, ⟨none, some "2023-05-28"⟩, some "All day"⟩

/-- The environment of the all-day failing run. -/
def envC2 : Env :=
  { cache := none, now := 2000, localDate := ⟨2023, 5, 28⟩
  , localOffset := -420, calendarTimeZone := some "America/Los_Angeles"
  , response := ServiceResponse.items [allDayEvent] }

/-- Claim C2: the precise-timestamp path behaves as claimed — the input
2023-05-28T09:00:00-07:00 formats to "09:00 AM" at local offset -420
minutes (America/Los_Angeles on that date) — but the all-day fallback is
broken in the code: the extracted bare date "2023-05-28" can never match
the strptime format '%Y-%m-%dT%H:%M:%S%z', so a run whose listing holds an
all-day event raises an uncaught ValueError instead of formatting it. -/
theorem C2_normalization :
    formatField (-420) ⟨some "2023-05-28T09:00:00-07:00", none⟩ =
      Except.ok "09:00 AM" ∧
    extractTime ⟨none, some "2023-05-28"⟩ = some "2023-05-28" ∧
    strptime_iso "2023-05-28" = none ∧
    (get_today_events envC2).ret = Except.error PyError.valueError :=
  ⟨rfl, rfl, rfl, rfl⟩

/-! ### Claim C10 -/

/-- Claim C10: a remote-service error during the fetch path leaves the
on-disk cache record unchanged; in general the cache file is rewritten
only by a fully successful fetch-and-normalize run, which stores exactly
the list it also returns serialized — no partial result is ever
persisted. -/
theorem C10_cache_preserved_on_error (env : Env) (msg : String)
    (hr : env.response = ServiceResponse.httpError msg) :
    (get_today_events env).cache = env.cache ∧
    ∀ env2 : Env, (get_today_events env2).cache ≠ env2.cache →
      ∃ l, (get_today_events env2).ret = Except.ok (some (json_dumps l)) ∧
        (get_today_events env2).cache =
          some { timestamp := env2.now, event_list := l } := by
  constructor
  · by_cases h : (get_today_events env).cache = env.cache
    · exact h
    · rw [get_cache_changed env h, fetch_path_httpError env msg hr]
  · intro env2 hne
    have he := get_cache_changed env2 hne
    rw [he] at hne ⊢
    exact fetch_path_cache_changed env2 hne

/-- The environment of the cache-preservation witness: an expired record
on disk and a service that raises. -/
def envC10 : Env :=
  { cache := some sampleCache, now := 5000, localDate := ⟨2023, 5, 28⟩
  , localOffset := -420, calendarTimeZone := some "America/Los_Angeles"
  , response := ServiceResponse.httpError "An error occurred: timeout" }

/-- Claim C10 witness: the concrete erroring run leaves the expired
record on disk untouched. -/
theorem C10_cache_preserved_on_error_witness :
    (get_today_events envC10).cache = envC10.cache :=
  (C10_cache_preserved_on_error envC10 "An error occurred: timeout" rfl).1

end CalendarApiCalls
